import Mathlib

/-!
Shallow embedding of the core of `gplaycli/gplaycli.py` (the `GPlaycli`
class): token cache, token retrieval, session bootstrap, the local-apk
update reconciler, the batch download orchestrator and the audit-log
writer.  Python strings are modelled as `List Char`; the file system is
modelled as the contents of the individual files the code touches
(`Option PyStr`, `none` meaning the file is absent); the remote API and
the OS are modelled as explicit oracle inputs.
-/

namespace GPlayCli

/-- Python `str` values are modelled as lists of characters. -/
abbrev PyStr := List Char

/-- The characters Python's `str.split()` (no argument) treats as
whitespace: space, tab, newline, carriage return, vertical tab, form feed. -/
def pyIsSpace (c : Char) : Bool :=
  c = ' ' || c = '\t' || c = '\n' || c = '\r' || c = '\x0B' || c = '\x0C'

/-- Worker for `wsSplit`; `acc` holds the current chunk reversed. -/
def wsSplitAux : List Char → List Char → List (List Char)
  | [], acc => if acc = [] then [] else [acc.reverse]
  | c :: cs, acc =>
    if pyIsSpace c then
      if acc = [] then wsSplitAux cs []
      else acc.reverse :: wsSplitAux cs []
    else wsSplitAux cs (c :: acc)

/-- Python `s.split()` with no argument: split on runs of whitespace,
discarding empty chunks. -/
def wsSplit (s : PyStr) : List PyStr := wsSplitAux s []

/-- Worker for `splitOnSpace`. -/
def splitOnSpaceAux : List Char → List Char → List (List Char)
  | [], acc => [acc.reverse]
  | c :: cs, acc =>
    if c = ' ' then acc.reverse :: splitOnSpaceAux cs []
    else splitOnSpaceAux cs (c :: acc)

/-- Python `s.split(" ")`: split at every single space character,
keeping empty chunks (so the result of splitting `s` always has one more
element than the number of spaces in `s`). -/
def splitOnSpace (s : PyStr) : List PyStr := splitOnSpaceAux s []

/-- Python `file.readline()` on the whole file contents: everything up
to the first newline.  (The newline itself is kept by Python but is
irrelevant here because every consumer immediately splits on
whitespace; we drop it.) -/
def firstLine (s : PyStr) : PyStr := s.takeWhile (fun c => c != '\n')

/-- Numeric value of a list of decimal digit characters. -/
def digitsToNat (l : List Char) : Nat :=
  l.foldl (fun n c => 10 * n + (c.toNat - '0'.toNat)) 0

/-- Python `int(s)` on a string, modelled on the common grammar:
optional surrounding whitespace, an optional sign, then one or more
decimal digits.  `none` models the `ValueError` raised on any other
input. -/
def pyInt (s : PyStr) : Option Int :=
  let t := ((s.dropWhile pyIsSpace).reverse.dropWhile pyIsSpace).reverse
  match t with
  | [] => none
  | '+' :: ds =>
    if ds ≠ [] ∧ ds.all Char.isDigit then some (digitsToNat ds : Nat) else none
  | '-' :: ds =>
    if ds ≠ [] ∧ ds.all Char.isDigit then some (-(digitsToNat ds : Int)) else none
  | ds =>
    if ds.all Char.isDigit then some (digitsToNat ds : Nat) else none

/-! ## Token cache (`gplaycli.py` lines 138-183)

The token cache file is modelled by its contents: `Option PyStr`, with
`none` for "the file does not exist" (opening it raises `IOError`). -/

/-- Model of `GPlaycli.get_cached_token` (lines 138-149).  Reads the first line
of the cache file and splits it on whitespace; the destructuring
assignment `token, gsfid = tcf.readline().split()` raises `ValueError`
unless the split yields exactly two chunks.  Both `IOError` (missing
file) and `ValueError` are caught and turned into `(None, None)`, so the
function is total: it never raises to its caller. -/
def get_cached_token (fs : Option PyStr) : Option PyStr × Option PyStr :=
  match fs with
  | none => (none, none)
  | some content =>
    match wsSplit (firstLine content) with
    | [token, gsfid] =>
      if token = [] then (none, none) else (some token, some gsfid)
    | _ => (none, none)

/-- Model of `GPlaycli.write_cached_token` (lines 151-162), success path: the
cache file is overwritten with `"%s %s" % (token, gsfid)`.  (The
`IOError` branch re-raises on an unwritable directory; the model takes
the file system to be writable, which is the situation every claim about
the cache is about.) -/
def write_cached_token (token gsfid : PyStr) (_fs : Option PyStr) : Option PyStr :=
  some (token ++ ' ' :: gsfid)

/-- The `ERRORS.OK` exit code. -/
def ERRORS_OK : Nat := 0
/-- The `ERRORS.TOKEN_DISPENSER_AUTH_ERROR` exit code. -/
def ERRORS_TOKEN_DISPENSER_AUTH_ERROR : Nat := 5
/-- The `ERRORS.TOKEN_DISPENSER_SERVER_ERROR` exit code. -/
def ERRORS_TOKEN_DISPENSER_SERVER_ERROR : Nat := 6
/-- The `ERRORS.KEYRING_NOT_INSTALLED` exit code. -/
def ERRORS_KEYRING_NOT_INSTALLED : Nat := 10
/-- The `ERRORS.CANNOT_LOGIN_GPLAY` exit code. -/
def ERRORS_CANNOT_LOGIN_GPLAY : Nat := 15

/-- Outcome of `GPlaycli.retrieve_token`.  `exit` models `sys.exit(code)`,
`valueError` the uncaught `ValueError` from the destructuring of
`r.text.split(" ")`, and `ok` carries the returned pair together with
the cache-file contents after the call (the call persists a freshly
fetched pair via `write_cached_token` before returning). -/
inductive TokenFetchResult where
  | exit (code : Nat)
  | valueError
  | ok (token gsfid : PyStr) (cache : Option PyStr)
deriving DecidableEq, Repr

/-- Lines 169-183 of `retrieve_token`: the fresh-fetch path after the
cache check.  `body` is the text of the single GET response from the
token dispenser (the code performs exactly one request and never
retries). -/
def fetchFresh (body : PyStr) (fs : Option PyStr) : TokenFetchResult :=
  if body = "Auth error".toList then
    .exit ERRORS_TOKEN_DISPENSER_AUTH_ERROR
  else if body = "Server error".toList then
    .exit ERRORS_TOKEN_DISPENSER_SERVER_ERROR
  else
    match splitOnSpace body with
    | [token, gsfid] => .ok token gsfid (write_cached_token token gsfid fs)
    | _ => .valueError

/-- Model of `GPlaycli.retrieve_token` (lines 164-183).  Returns the cached pair
unless it is absent or `force_new` is set, in which case it fetches a
fresh pair from the dispenser. -/
def retrieve_token (forceNew : Bool) (fs : Option PyStr) (body : PyStr) :
    TokenFetchResult :=
  match get_cached_token fs with
  | (some token, some gsfid) =>
    if forceNew then fetchFresh body fs else .ok token gsfid fs
  | _ => fetchFresh body fs

/-! ## Session bootstrap (`gplaycli.py` lines 188-223)

`connect_to_googleplay_api` builds a `GooglePlayAPI` handle, resolves
login parameters (lines 189-212: credentials vs. token; that block only
selects the parameters passed to `api.login` — or exits the process on
the missing-keyring path — and never performs a normal return, so it is
abstracted into the choice of the login oracle), then attempts
`api.login`.  The oracle `login n` gives the exception raised by the
`n`-th login call of the run (`none` = the call succeeds). -/

/-- The exceptions an `api.login` call can raise, as classified by the
`except (ValueError, IndexError, LoginError, DecodeError)` clause:
the four caught kinds plus anything else. -/
inductive LoginExc where
  | valueError
  | indexError
  | loginError
  | decodeError
  | other
deriving DecidableEq, Repr

/-- Whether an exception kind is in the tuple of the `except` clause on
line 218. -/
def caughtLoginExc : LoginExc → Bool
  | .other => false
  | _ => true

/-- Normal-return value or propagated exception of
`connect_to_googleplay_api`. -/
inductive ConnectResult where
  | ok (success : Bool) (error : Option PyStr)
  | raised (e : LoginExc)
deriving DecidableEq, Repr

/-- Observable trace of one `connect_to_googleplay_api` call: how many
`api.login` calls were made, how many forced token refreshes
(`retrieve_token(force_new=True)`) were made, and the outcome. -/
structure ConnectTrace where
  loginAttempts : Nat
  forcedRefreshes : Nat
  result : ConnectResult
deriving DecidableEq, Repr

/-- Model of `GPlaycli.connect_to_googleplay_api` (lines 188-223).  `error` is
initialised to `None` on line 190 and never reassigned; on any path that
reaches line 222, `success = True` is returned together with it.  The
first login failure with a caught exception kind triggers one
`retrieve_token(force_new=True)` and one retry on line 221, which is not
wrapped in a `try`, so its failure propagates. -/
def connect_to_googleplay_api (login : Nat → Option LoginExc) : ConnectTrace :=
  match login 0 with
  | none => ⟨1, 0, .ok true none⟩
  | some e =>
    if caughtLoginExc e then
      match login 1 with
      | none => ⟨2, 1, .ok true none⟩
      | some e2 => ⟨2, 1, .raised e2⟩
    else ⟨1, 0, .raised e⟩

/-- The guard of the branch in `main` (line 478): `if not success`. -/
def main_login_guard (success : Bool) : Bool := !success

/-! ## Update reconciler (`gplaycli.py` lines 238-262) -/

/-- One local apk as seen by `analyse_local_apks`: its filename (an
element of `list_of_apks`) together with the package name and version
code extracted by the external `APK` metadata capability
(`package_bunch` / `version_codes` entries at the same position). -/
structure LocalApk where
  filename : PyStr
  package : PyStr
  versionCode : PyStr
deriving DecidableEq, Repr

/-- One element of the `list_apks_to_update` result:
`[packagename, filename, int(apk_version_code), int(store_version_code)]`. -/
structure UpdateCandidate where
  package : PyStr
  filename : PyStr
  localVersion : Int
  storeVersion : Int
deriving DecidableEq, Repr

/-- Result of `analyse_local_apks`: either the candidate list, or the
uncaught `ValueError` raised by `int(apk_version_code)` on a non-empty,
non-numeric version code (which aborts the whole scan). -/
inductive ScanResult where
  | ok (cands : List UpdateCandidate)
  | valueError
deriving DecidableEq, Repr

/-- The comparison loop of `GPlaycli.analyse_local_apks` (lines 253-262)
over `zip(details, package_bunch, list_of_apks, version_codes)`; the
`APK`-derived columns are bundled into `apks` and the store versions
`detail['versionCode']` (already integers) into `versions`.  Python's
`zip` truncates to the shorter list.  The guard is evaluated left to
right: `apk_version_code != ""` short-circuits, then
`int(apk_version_code) < int(store_version_code)`, then
`int(store_version_code) != 0`. -/
def analyse_local_apks : List LocalApk → List Int → ScanResult
  | [], _ => .ok []
  | _, [] => .ok []
  | apk :: apks, v :: vs =>
    if apk.versionCode = [] then
      analyse_local_apks apks vs
    else
      match pyInt apk.versionCode with
      | none => .valueError
      | some lv =>
        match analyse_local_apks apks vs with
        | .valueError => .valueError
        | .ok cands =>
          if lv < v ∧ v ≠ 0 then
            .ok (⟨apk.package, apk.filename, lv, v⟩ :: cands)
          else
            .ok cands

/-- Spec-side description of the candidate list: one candidate per
zipped (apk, store-version) pair whose version code is non-empty,
parses as an integer, and is strictly below a non-zero store version. -/
def specCandidates (apks : List LocalApk) (versions : List Int) :
    List UpdateCandidate :=
  (apks.zip versions).filterMap fun (p : LocalApk × Int) =>
    match pyInt p.1.versionCode with
    | none => none
    | some lv =>
      if p.1.versionCode ≠ [] ∧ lv < p.2 ∧ p.2 ≠ 0 then
        some ⟨p.1.package, p.1.filename, lv, p.2⟩
      else none

/-! ## Batch download orchestrator (`gplaycli.py` lines 288-353) -/

/-- An element of the `pkg_todownload` argument: either a bare
identifier string (as passed from `main` for `-d`), or an
`[packagename, filename]` pair (as passed from
`prepare_download_updates`; `filename` may be `None` after
normalization). -/
inductive PkgEntry where
  | bare (s : PyStr)
  | pair (id : PyStr) (filename : Option PyStr)
deriving DecidableEq, Repr

/-- The `item[0]` identifier of a (normalized) entry. -/
def PkgEntry.pkgId : PkgEntry → PyStr
  | .bare s => s
  | .pair s _ => s

/-- What the normalization loop (lines 294-296) does to one element:
`if type(pkg) is str: pkg_todownload[index] = (pkg, None)`. -/
def normEntry : PkgEntry → PkgEntry
  | .bare s => .pair s none
  | .pair s f => .pair s f

/-- The normalization loop itself: each element of the caller's list is
replaced in place by its normalized form. -/
def normalize_todownload : List PkgEntry → List PkgEntry
  | [] => []
  | e :: rest => normEntry e :: normalize_todownload rest

/-- Outcome of the `self.api.download(packagename, ...)` call for one
item, as discriminated by the two `except` clauses (lines 316-323):
`IndexError` (package absent from the catalog), any other exception, or
success. -/
inductive DlRes where
  | ok
  | indexError
  | otherError
deriving DecidableEq, Repr

/-- Per-iteration behaviour of the environment: the outcome of the
`api.download` call, and whether the local apk/obb writes in the `else`
block (lines 332-338) all succeed (`false` = some write raises
`IOError`).  The zipped `detail` value itself is never used by the loop
body, so the environment behaviour stands in its position. -/
abbrev ItemEnv := DlRes × Bool

/-- The body of the `for detail, item in zip(details, pkg_todownload)`
loop, accumulating `(success_downloads, failed_downloads,
unavail_downloads)` as lists of `item[0]` identifiers, in append order.
On a successful `api.download`, the identifier is appended to
`success_downloads` (line 315) before any write is attempted; an
`IOError` during the writes then also appends it to `failed_downloads`
(line 341) without removing it from `success_downloads`. -/
def download_loop : List (ItemEnv × PkgEntry) → List PyStr × List PyStr × List PyStr
  | [] => ([], [], [])
  | ((DlRes.indexError, _), item) :: rest =>
    ((download_loop rest).1, (download_loop rest).2.1,
      item.pkgId :: (download_loop rest).2.2)
  | ((DlRes.otherError, _), item) :: rest =>
    ((download_loop rest).1, item.pkgId :: (download_loop rest).2.1,
      (download_loop rest).2.2)
  | ((DlRes.ok, true), item) :: rest =>
    (item.pkgId :: (download_loop rest).1, (download_loop rest).2.1,
      (download_loop rest).2.2)
  | ((DlRes.ok, false), item) :: rest =>
    (item.pkgId :: (download_loop rest).1, item.pkgId :: (download_loop rest).2.1,
      (download_loop rest).2.2)

/-- Everything observable about one `download_packages` run: the three
accumulator lists, the four sets computed on lines 344-347, the returned
set (line 353), and the caller-visible state of the `pkg_todownload`
list after the in-place normalization. -/
structure DownloadRun where
  success_list : List PyStr
  failed_list : List PyStr
  unavail_list : List PyStr
  success_items : Finset PyStr
  failed_items : Finset PyStr
  unavail_items : Finset PyStr
  to_download_items : Finset PyStr
  returned : Finset PyStr
  final_todownload : List PkgEntry

/-- Model of `GPlaycli.download_packages` (lines 288-353).  `envs` lists, for
each position of the bulk-details response, the environment behaviour of
that iteration; Python's `zip(details, pkg_todownload)` truncates to the
shorter list, so only the first `min (envs.length) (pkgs.length)` items
are processed, while `to_download_items` is computed from the full
(normalized) list.  The function returns
`to_download_items - failed_items`. -/
def download_packages (pkgs : List PkgEntry) (envs : List ItemEnv) : DownloadRun :=
  let todo := normalize_todownload pkgs
  let r := download_loop (envs.zip todo)
  { success_list := r.1
    failed_list := r.2.1
    unavail_list := r.2.2
    success_items := r.1.toFinset
    failed_items := r.2.1.toFinset
    unavail_items := r.2.2.toFinset
    to_download_items := (todo.map PkgEntry.pkgId).toFinset
    returned := (todo.map PkgEntry.pkgId).toFinset \ r.2.1.toFinset
    final_todownload := todo }

/-! ## Audit log files (`gplaycli.py` lines 416-424) -/

/-- The contents `print(package, file=_buffer)` produces for a category:
each identifier followed by a newline. -/
def logLines (result : List PyStr) : PyStr :=
  result.foldr (fun p acc => p ++ '\n' :: acc) []

/-- One iteration of the loop in `write_logfiles`: the file is opened
with mode `'w'` (truncating) and rewritten only when `if result:` holds,
i.e. only when the category is non-empty; an empty category leaves the
file untouched.  `result` stands for the category set in its (arbitrary)
iteration order. -/
def writeLogfile (result : List PyStr) (fs : Option PyStr) : Option PyStr :=
  if result = [] then fs else some (logLines result)

/-- Model of `GPlaycli.write_logfiles` (lines 416-424) acting on the contents of
the three audit log files. -/
def write_logfiles (succ fail unav : List PyStr)
    (fsSucc fsFail fsUnav : Option PyStr) :
    Option PyStr × Option PyStr × Option PyStr :=
  (writeLogfile succ fsSucc, writeLogfile fail fsFail, writeLogfile unav fsUnav)

/-! ## Helper lemmas -/

/-- The per-item condition under which the loop records an item in
`failed_downloads`: a generic download exception, or a successful
download whose local write raises `IOError`. -/
def failCond (env : ItemEnv) : Prop :=
  env.1 = DlRes.otherError ∨ (env.1 = DlRes.ok ∧ env.2 = false)

instance (env : ItemEnv) : Decidable (failCond env) := by
  unfold failCond; infer_instance

theorem pkgId_normEntry (e : PkgEntry) : (normEntry e).pkgId = e.pkgId := by
  cases e <;> rfl

theorem normalize_eq_map (l : List PkgEntry) :
    normalize_todownload l = l.map normEntry := by
  induction l with
  | nil => rfl
  | cons e t ih => simp [normalize_todownload, ih]

theorem normalize_length (l : List PkgEntry) :
    (normalize_todownload l).length = l.length := by
  rw [normalize_eq_map]; exact l.length_map normEntry

theorem map_pkgId_normalize (l : List PkgEntry) :
    (normalize_todownload l).map PkgEntry.pkgId = l.map PkgEntry.pkgId := by
  induction l with
  | nil => rfl
  | cons e t ih => simp [normalize_todownload, pkgId_normEntry, ih]

theorem mem_download_loop_success (l : List (ItemEnv × PkgEntry)) (x : PyStr) :
    x ∈ (download_loop l).1 ↔ ∃ p ∈ l, p.2.pkgId = x ∧ p.1.1 = DlRes.ok := by
  induction l with
  | nil => simp [download_loop]
  | cons hd tl ih =>
    obtain ⟨⟨d, w⟩, item⟩ := hd
    cases d <;> cases w <;>
      simp [download_loop, ih, List.exists_mem_cons_iff, eq_comm]

theorem failCond_indexError (w : Bool) : failCond (DlRes.indexError, w) ↔ False := by
  simp [failCond]

theorem failCond_otherError (w : Bool) : failCond (DlRes.otherError, w) ↔ True := by
  simp [failCond]

theorem failCond_ok (w : Bool) : failCond (DlRes.ok, w) ↔ w = false := by
  simp [failCond]

theorem mem_download_loop_failed (l : List (ItemEnv × PkgEntry)) (x : PyStr) :
    x ∈ (download_loop l).2.1 ↔ ∃ p ∈ l, p.2.pkgId = x ∧ failCond p.1 := by
  induction l with
  | nil => simp [download_loop]
  | cons hd tl ih =>
    obtain ⟨⟨d, w⟩, item⟩ := hd
    cases d <;> cases w <;>
      simp [download_loop, ih, List.exists_mem_cons_iff, failCond_indexError,
        failCond_otherError, failCond_ok, eq_comm]

theorem mem_download_loop_unavail (l : List (ItemEnv × PkgEntry)) (x : PyStr) :
    x ∈ (download_loop l).2.2 ↔ ∃ p ∈ l, p.2.pkgId = x ∧ p.1.1 = DlRes.indexError := by
  induction l with
  | nil => simp [download_loop]
  | cons hd tl ih =>
    obtain ⟨⟨d, w⟩, item⟩ := hd
    cases d <;> cases w <;>
      simp [download_loop, ih, List.exists_mem_cons_iff, eq_comm]

theorem exists_zip_left {α β : Type} :
    ∀ (l₁ : List α) (l₂ : List β), l₁.length = l₂.length →
      ∀ b ∈ l₂, ∃ a, (a, b) ∈ l₁.zip l₂ := by
  intro l₁ l₂
  induction l₂ generalizing l₁ with
  | nil => intro _ b hb; cases hb
  | cons b0 t2 ih =>
    intro hlen b hb
    match l₁ with
    | [] => simp at hlen
    | a0 :: t1 =>
      rcases List.mem_cons.mp hb with rfl | hb'
      · exact ⟨a0, List.mem_cons_self _ _⟩
      · obtain ⟨a, ha⟩ := ih t1 (by simpa using hlen) b hb'
        exact ⟨a, List.mem_cons_of_mem _ ha⟩

/-! ## Concrete inputs used by counterexamples and witnesses -/

/-- Identifier `"a"`. -/
def idA : PyStr := ['a']
/-- Identifier `"b"`. -/
def idB : PyStr := ['b']
/-- Identifier `"c"`. -/
def idC : PyStr := ['c']

/-- Per-pair version of `specCandidates`: the candidate (if any) a
single zipped (local apk, store version) pair contributes. -/
def specCandidate (a : LocalApk) (v : Int) : Option UpdateCandidate :=
  match pyInt a.versionCode with
  | none => none
  | some lv =>
    if a.versionCode ≠ [] ∧ lv < v ∧ v ≠ 0 then
      some ⟨a.package, a.filename, lv, v⟩
    else none

theorem specCandidates_eq (apks : List LocalApk) (versions : List Int) :
    specCandidates apks versions =
      (apks.zip versions).filterMap fun p => specCandidate p.1 p.2 := by
  unfold specCandidates specCandidate
  rfl

theorem specCandidate_some {a : LocalApk} {v : Int} {c : UpdateCandidate}
    (h : specCandidate a v = some c) : c.storeVersion = v ∧ v ≠ 0 := by
  unfold specCandidate at h
  split at h
  · exact absurd h (by simp)
  · split at h
    · rename_i hcond
      cases h
      exact ⟨rfl, hcond.2.2⟩
    · exact absurd h (by simp)

theorem analyse_ok_eq :
    ∀ (apks : List LocalApk) (versions : List Int) (cands : List UpdateCandidate),
      analyse_local_apks apks versions = .ok cands →
      cands = specCandidates apks versions := by
  intro apks
  induction apks with
  | nil =>
    intro versions cands h
    cases versions <;>
      · simp [analyse_local_apks] at h
        simp [← h, specCandidates]
  | cons apk rest ih =>
    intro versions cands h
    cases versions with
    | nil =>
      simp [analyse_local_apks] at h
      simp [← h, specCandidates]
    | cons v vst =>
      rw [specCandidates_eq, List.zip_cons_cons, List.filterMap_cons]
      obtain ⟨fn, pkg, vc⟩ := apk
      unfold analyse_local_apks at h
      by_cases hvc : vc = []
      · subst hvc
        rw [if_pos rfl] at h
        have he := ih vst cands h
        rw [specCandidates_eq] at he
        simpa [specCandidate, pyInt] using he
      · rw [if_neg (by simpa using hvc)] at h
        rcases hpi : pyInt vc with _ | lv
        · simp only [hpi] at h
          exact ScanResult.noConfusion h
        · simp only [hpi] at h
          rcases hrest : analyse_local_apks rest vst with cands' | _
          · simp only [hrest] at h
            have he := ih vst cands' hrest
            rw [specCandidates_eq] at he
            by_cases hcond : lv < v ∧ v ≠ 0
            · rw [if_pos hcond] at h
              injection h with h'
              subst h'
              have hsc : specCandidate ⟨fn, pkg, vc⟩ v =
                  some ⟨pkg, fn, lv, v⟩ := by
                simp only [specCandidate, hpi]
                rw [if_pos (And.intro hvc hcond)]
              simp [hsc, he]
            · rw [if_neg hcond] at h
              injection h with h'
              subst h'
              have hsc : specCandidate ⟨fn, pkg, vc⟩ v = none := by
                simp only [specCandidate, hpi]
                rw [if_neg (fun hx => hcond hx.2)]
              simp [hsc, he]
          · simp only [hrest] at h
            exact ScanResult.noConfusion h

/-! ## Claims about the update reconciler -/

/-- Claim C3, counterexample.  The guard in `analyse_local_apks` is
`apk_version_code != ""`, not "parses as a positive integer": for the
local version string `"0"` (which parses as `0`, not a positive integer)
and store version `5`, a candidate *is* produced. -/
theorem C3_counterexample :
    analyse_local_apks [⟨['f'], ['p'], ['0']⟩] [5] = .ok [⟨['p'], ['f'], 0, 5⟩] ∧
    pyInt ['0'] = some 0 ∧ ¬ (0 : Int) > 0 := by
  decide

/-- Claim C3, amended: whenever `analyse_local_apks` returns normally,
its candidate list contains exactly one candidate for each processed
(local, remote) pair whose local version string is non-empty and parses
as an integer strictly below a non-zero remote version — and in
particular every produced candidate has a non-zero remote version.  (A
non-empty local version string that does not parse as an integer makes
the whole scan raise `ValueError` instead.) -/
theorem C3_theorem (apks : List LocalApk) (versions : List Int)
    (cands : List UpdateCandidate)
    (h : analyse_local_apks apks versions = .ok cands) :
    cands = specCandidates apks versions ∧ ∀ c ∈ cands, c.storeVersion ≠ 0 := by
  have he := analyse_ok_eq apks versions cands h
  refine ⟨he, fun c hc => ?_⟩
  rw [he, specCandidates_eq] at hc
  obtain ⟨p, _, hp⟩ := List.mem_filterMap.mp hc
  obtain ⟨hv, hne⟩ := specCandidate_some hp
  rw [hv]
  exact hne

/-- Claim C3, witness: a concrete scan (local version `"1"`, store
version `2`) whose result the amended theorem pins down. -/
theorem C3_witness :
    ([⟨['p'], ['f'], 1, 2⟩] : List UpdateCandidate) =
        specCandidates [⟨['f'], ['p'], ['1']⟩] [2] ∧
    ∀ c ∈ ([⟨['p'], ['f'], 1, 2⟩] : List UpdateCandidate), c.storeVersion ≠ 0 :=
  C3_theorem [⟨['f'], ['p'], ['1']⟩] [2] [⟨['p'], ['f'], 1, 2⟩] (by decide)

/-! ## Claims about the session bootstrap -/

/-- Claim C4: if the first login raises one of the four caught exception
kinds, then exactly one forced token refresh and exactly one retry are
performed (two login attempts in total), and a failure of the second
attempt propagates — there is no third attempt. -/
theorem C4_theorem (login : Nat → Option LoginExc) (e : LoginExc)
    (h0 : login 0 = some e) (hc : caughtLoginExc e = true) :
    (connect_to_googleplay_api login).forcedRefreshes = 1 ∧
    (connect_to_googleplay_api login).loginAttempts = 2 ∧
    ∀ e2, login 1 = some e2 →
      (connect_to_googleplay_api login).result = ConnectResult.raised e2 := by
  cases h1 : login 1 with
  | none =>
    refine ⟨?_, ?_, ?_⟩ <;> simp [connect_to_googleplay_api, h0, hc, h1]
  | some e2x =>
    refine ⟨?_, ?_, ?_⟩
    · simp [connect_to_googleplay_api, h0, hc, h1]
    · simp [connect_to_googleplay_api, h0, hc, h1]
    · intro e2 h2
      injection h2 with h3
      subst h3
      simp [connect_to_googleplay_api, h0, hc, h1]

/-- A login oracle whose first call raises `DecodeError` and whose
second call raises `LoginError`. -/
def twoFailLogin : Nat → Option LoginExc :=
  fun n => if n = 0 then some LoginExc.decodeError else some LoginExc.loginError

/-- Claim C4, witness: the double-failure scenario instantiated. -/
theorem C4_witness :
    (connect_to_googleplay_api twoFailLogin).forcedRefreshes = 1 ∧
    (connect_to_googleplay_api twoFailLogin).loginAttempts = 2 ∧
    (connect_to_googleplay_api twoFailLogin).result
      = ConnectResult.raised LoginExc.loginError := by
  have h := C4_theorem twoFailLogin LoginExc.decodeError rfl rfl
  exact ⟨h.1, h.2.1, h.2.2 LoginExc.loginError rfl⟩

/-- Claim C9: whenever `connect_to_googleplay_api` returns normally it
returns exactly `(True, None)`, so the `if not success` branch of `main`
(which would exit with `CANNOT_LOGIN_GPLAY`) can never be taken. -/
theorem C9_theorem (login : Nat → Option LoginExc) (s : Bool) (err : Option PyStr)
    (h : (connect_to_googleplay_api login).result = ConnectResult.ok s err) :
    s = true ∧ err = none ∧ main_login_guard s = false := by
  have hs : s = true ∧ err = none := by
    unfold connect_to_googleplay_api at h
    rcases h0 : login 0 with _ | e
    · simp only [h0] at h
      injection h with h1 h2
      exact ⟨h1.symm, h2.symm⟩
    · simp only [h0] at h
      rcases hce : caughtLoginExc e with _ | _
      · simp [hce] at h
      · simp only [hce, if_true] at h
        rcases h1 : login 1 with _ | e2
        · simp only [h1] at h
          injection h with h1x h2x
          exact ⟨h1x.symm, h2x.symm⟩
        · simp only [h1] at h
          exact ConnectResult.noConfusion h
  refine ⟨hs.1, hs.2, ?_⟩
  rw [hs.1]
  rfl

/-- Claim C9, witness: a run whose login succeeds immediately returns
`(True, None)` and does not trigger the login-failure branch of `main`. -/
theorem C9_witness :
    true = true ∧ (none : Option PyStr) = none ∧ main_login_guard true = false :=
  C9_theorem (fun _ => none) true none rfl


/-- Claim C1, counterexample.  For requested `{a, b, c}` where `b`'s
download raises a generic exception and `c`'s raises `IndexError`
(unavailable), `download_packages` returns `{a, c}`: the unavailable
identifier `c` is *not* removed, so the returned set is not `{a}` as the
claim states. -/
theorem C1_counterexample :
    (download_packages [.bare idA, .bare idB, .bare idC]
        [(DlRes.ok, true), (DlRes.otherError, true), (DlRes.indexError, true)]).returned
      = {idA, idC} ∧
    ({idA, idC} : Finset PyStr) ≠ {idA} := by
  decide

/-- Claim C1, amended: for every request list and environment behaviour,
an identifier is in the set returned by `download_packages` iff it is a
requested identifier and no processed occurrence of it was classified as
Failed (generic download exception, or successful download with a
failing local write).  Unavailable identifiers are not removed. -/
theorem C1_theorem (pkgs : List PkgEntry) (envs : List ItemEnv) (x : PyStr) :
    x ∈ (download_packages pkgs envs).returned ↔
      (∃ e ∈ pkgs, e.pkgId = x) ∧
      ¬ ∃ p ∈ envs.zip (normalize_todownload pkgs), p.2.pkgId = x ∧ failCond p.1 := by
  show x ∈ ((normalize_todownload pkgs).map PkgEntry.pkgId).toFinset \
      (download_loop (envs.zip (normalize_todownload pkgs))).2.1.toFinset ↔ _
  rw [Finset.mem_sdiff, List.mem_toFinset, List.mem_toFinset,
    map_pkgId_normalize, mem_download_loop_failed, List.mem_map]

/-- Claim C2, counterexample.  A package whose remote download succeeds
but whose local write raises `IOError` is recorded in *both*
`success_downloads` (appended on line 315, before the write) and
`failed_downloads` (appended on line 341), so it appears in both the
Success and the Failed sets — refuting both the mutual-exclusivity part
of the claim and the "not in the Success set" part. -/
theorem C2_counterexample :
    idA ∈ (download_packages [.pair idA none] [(DlRes.ok, false)]).success_items ∧
    idA ∈ (download_packages [.pair idA none] [(DlRes.ok, false)]).failed_items := by
  decide

/-- Claim C2, amended: every requested `PackageRef` appears in at least
one outcome category, but the categories are not mutually exclusive: an
item whose remote download succeeds while its local disk write raises
`IOError` appears in both the Success and the Failed sets. -/
theorem C2_theorem (pkgs : List PkgEntry) (envs : List ItemEnv)
    (hlen : envs.length = pkgs.length) :
    (∀ e ∈ normalize_todownload pkgs,
        e.pkgId ∈ (download_packages pkgs envs).success_list ∨
        e.pkgId ∈ (download_packages pkgs envs).failed_list ∨
        e.pkgId ∈ (download_packages pkgs envs).unavail_list) ∧
    (∀ p ∈ envs.zip (normalize_todownload pkgs),
        p.1.1 = DlRes.ok → p.1.2 = false →
        p.2.pkgId ∈ (download_packages pkgs envs).success_list ∧
        p.2.pkgId ∈ (download_packages pkgs envs).failed_list) := by
  constructor
  · intro e he
    obtain ⟨env, henv⟩ := exists_zip_left envs (normalize_todownload pkgs)
      (by rw [hlen, normalize_length]) e he
    show e.pkgId ∈ (download_loop (envs.zip (normalize_todownload pkgs))).1 ∨
      e.pkgId ∈ (download_loop (envs.zip (normalize_todownload pkgs))).2.1 ∨
      e.pkgId ∈ (download_loop (envs.zip (normalize_todownload pkgs))).2.2
    rcases hd : env.1 with _ | _ | _
    · exact Or.inl ((mem_download_loop_success _ _).mpr ⟨(env, e), henv, rfl, hd⟩)
    · exact Or.inr (Or.inr ((mem_download_loop_unavail _ _).mpr ⟨(env, e), henv, rfl, hd⟩))
    · exact Or.inr (Or.inl ((mem_download_loop_failed _ _).mpr
        ⟨(env, e), henv, rfl, Or.inl hd⟩))
  · intro p hp hok hw
    exact ⟨(mem_download_loop_success _ _).mpr ⟨p, hp, rfl, hok⟩,
      (mem_download_loop_failed _ _).mpr ⟨p, hp, rfl, Or.inr ⟨hok, hw⟩⟩⟩

/-- Claim C2, witness: a concrete run in which an unavailable item is
classified into a category (instantiating the amended coverage
property). -/
theorem C2_witness :
    idA ∈ (download_packages [.bare idA] [(DlRes.indexError, true)]).success_list ∨
    idA ∈ (download_packages [.bare idA] [(DlRes.indexError, true)]).failed_list ∨
    idA ∈ (download_packages [.bare idA] [(DlRes.indexError, true)]).unavail_list :=
  (C2_theorem [.bare idA] [(DlRes.indexError, true)] (by decide)).1
    (PkgEntry.pair idA none) (by decide)

/-- Claim C10: `download_packages` replaces, in the caller-visible
`pkg_todownload` list, every bare string identifier by the pair
`(identifier, None)` and leaves pair entries unchanged, element by
element. -/
theorem C10_theorem (pkgs : List PkgEntry) (envs : List ItemEnv) :
    (download_packages pkgs envs).final_todownload = pkgs.map normEntry ∧
    (∀ s, normEntry (PkgEntry.bare s) = PkgEntry.pair s none) ∧
    (∀ s f, normEntry (PkgEntry.pair s f) = PkgEntry.pair s f) :=
  ⟨normalize_eq_map pkgs, fun _ => rfl, fun _ _ => rfl⟩

/-! ## Claims about the token cache -/

theorem wsSplitAux_no_space (g : PyStr) (hg : g ≠ [])
    (hgw : ∀ c ∈ g, pyIsSpace c = false) :
    ∀ acc, wsSplitAux g acc = [acc.reverse ++ g] := by
  induction g with
  | nil => exact absurd rfl hg
  | cons c cs ih =>
    intro acc
    have hc : pyIsSpace c = false := hgw c (List.mem_cons_self _ _)
    rw [wsSplitAux, hc]
    simp only [Bool.false_eq_true, if_false]
    rcases hcs : cs with _ | ⟨d, ds⟩
    · rw [wsSplitAux, if_neg (by simp)]
      simp
    · rw [← hcs, ih (by rw [hcs]; simp)
        (fun x hx => hgw x (List.mem_cons_of_mem _ hx)) (c :: acc)]
      simp

theorem wsSplitAux_append_space (t g : PyStr) (hg : g ≠ [])
    (htw : ∀ c ∈ t, pyIsSpace c = false)
    (hgw : ∀ c ∈ g, pyIsSpace c = false) :
    ∀ acc, wsSplitAux (t ++ ' ' :: g) acc =
      (if acc.reverse ++ t = [] then [] else [acc.reverse ++ t]) ++ [g] := by
  induction t with
  | nil =>
    intro acc
    rw [List.nil_append, wsSplitAux]
    have : pyIsSpace ' ' = true := rfl
    rw [this]
    simp only [if_true]
    rcases hacc : acc with _ | ⟨a, as⟩
    · rw [if_pos rfl, wsSplitAux_no_space g hg hgw []]
      simp
    · rw [if_neg (by simp), wsSplitAux_no_space g hg hgw []]
      simp
  | cons c cs ih =>
    intro acc
    have hc : pyIsSpace c = false := htw c (List.mem_cons_self _ _)
    rw [List.cons_append, wsSplitAux, hc]
    simp only [Bool.false_eq_true, if_false]
    rw [ih (fun x hx => htw x (List.mem_cons_of_mem _ hx)) (c :: acc)]
    simp

theorem wsSplit_pair (t g : PyStr) (ht : t ≠ []) (hg : g ≠ [])
    (htw : ∀ c ∈ t, pyIsSpace c = false)
    (hgw : ∀ c ∈ g, pyIsSpace c = false) :
    wsSplit (t ++ ' ' :: g) = [t, g] := by
  rw [wsSplit, wsSplitAux_append_space t g hg htw hgw []]
  simp [ht]

theorem no_space_no_newline {s : PyStr} (hs : ∀ c ∈ s, pyIsSpace c = false) :
    ∀ c ∈ s, (c != '\n') = true := by
  intro c hc
  have := hs c hc
  rcases hnl : c == '\n' with _ | _
  · simpa using hnl
  · rw [show c = '\n' from by simpa using hnl] at this
    simp [pyIsSpace] at this

/-- Claim C5, counterexample.  The cache round trip fails for a token
containing a space: `write_cached_token "a b" "c"` stores `"a b c"`,
whose first line splits into three chunks, so `get_cached_token`
returns `(None, None)` rather than the written pair. -/
theorem C5_counterexample :
    get_cached_token (write_cached_token ['a', ' ', 'b'] ['c'] none) = (none, none) ∧
    ((none, none) : Option PyStr × Option PyStr)
      ≠ (some ['a', ' ', 'b'], some ['c']) := by
  decide

/-- Claim C5, amended: the round trip
`write_cached_token t g; get_cached_token` returns exactly `(t, g)` for
every *non-empty, whitespace-free* token `t` and session id `g` (the
written line is split on whitespace on read-back, so a token containing
whitespace, or an empty one, comes back as `(None, None)` instead). -/
theorem C5_theorem (t g : PyStr) (fs : Option PyStr) (ht : t ≠ []) (hg : g ≠ [])
    (htw : ∀ c ∈ t, pyIsSpace c = false) (hgw : ∀ c ∈ g, pyIsSpace c = false) :
    get_cached_token (write_cached_token t g fs) = (some t, some g) := by
  show (match wsSplit (firstLine (t ++ ' ' :: g)) with
    | [token, gsfid] =>
      if token = [] then (none, none) else (some token, some gsfid)
    | _ => ((none : Option PyStr), (none : Option PyStr))) = (some t, some g)
  have hfl : firstLine (t ++ ' ' :: g) = t ++ ' ' :: g := by
    rw [firstLine, List.takeWhile_eq_self_iff]
    intro c hc
    rcases List.mem_append.mp hc with hct | hcg
    · exact no_space_no_newline htw c hct
    · rcases List.mem_cons.mp hcg with rfl | hcg2
      · rfl
      · exact no_space_no_newline hgw c hcg2
  rw [hfl, wsSplit_pair t g ht hg htw hgw]
  simp [ht]

/-- Claim C5, witness: the round trip for the concrete pair
`("tok", "123")`. -/
theorem C5_witness :
    get_cached_token (write_cached_token "tok".toList "123".toList none)
      = (some "tok".toList, some "123".toList) :=
  C5_theorem "tok".toList "123".toList none (by decide) (by decide)
    (by decide) (by decide)

/-- Claim C6: `get_cached_token` is a total function of the cache-file
state (the embedding has no exception outcome — `IOError` and
`ValueError` are both caught by the source), and on every state the
claim lists — missing file, or a first line splitting into fewer than
two whitespace-separated chunks (empty or single-token file) — it
returns `(None, None)`. -/
theorem C6_theorem (fs : Option PyStr)
    (h : fs = none ∨ ∃ content, fs = some content ∧
      (wsSplit (firstLine content)).length < 2) :
    get_cached_token fs = (none, none) := by
  rcases h with rfl | ⟨content, rfl, hlen⟩
  · rfl
  · show (match wsSplit (firstLine content) with
      | [token, gsfid] =>
        if token = [] then (none, none) else (some token, some gsfid)
      | _ => ((none : Option PyStr), (none : Option PyStr))) = (none, none)
    rcases hsp : wsSplit (firstLine content) with _ | ⟨a, _ | ⟨b, rest⟩⟩
    · rfl
    · rfl
    · rw [hsp] at hlen
      simp only [List.length_cons] at hlen
      omega

/-- Claim C6, witness: a malformed single-token cache file yields the
cache-miss result. -/
theorem C6_witness : get_cached_token (some "tok".toList) = (none, none) :=
  C6_theorem (some "tok".toList) (Or.inr ⟨"tok".toList, rfl, by decide⟩)

theorem retrieve_token_force (fs : Option PyStr) (body : PyStr) :
    retrieve_token true fs body = fetchFresh body fs := by
  unfold retrieve_token
  rcases get_cached_token fs with ⟨_ | t, _ | g⟩ <;> rfl

/-- Claim C7, counterexample.  The source splits the dispenser response
with `split(" ")` — on the single space character only — not on general
whitespace: the body `"a\tb"` consists of two whitespace-separated
tokens, yet `retrieve_token` raises `ValueError` on it instead of
accepting it as a (token, sessionId) pair. -/
theorem C7_counterexample :
    wsSplit ['a', '\t', 'b'] = [['a'], ['b']] ∧
    retrieve_token true none ['a', '\t', 'b'] = TokenFetchResult.valueError := by
  decide

/-- Claim C7, amended: on a fresh fetch, the sentinel bodies
`"Auth error"` and `"Server error"` terminate the process with the
distinct exit classifications 5 and 6 and are never retried (the model
performs a single request by construction); any other body that splits
*on the single-space separator* into exactly two chunks is accepted as
the (token, sessionId) pair, persisted via `write_cached_token`, and
returned. -/
theorem C7_theorem :
    (∀ fs, retrieve_token true fs "Auth error".toList
      = TokenFetchResult.exit ERRORS_TOKEN_DISPENSER_AUTH_ERROR) ∧
    (∀ fs, retrieve_token true fs "Server error".toList
      = TokenFetchResult.exit ERRORS_TOKEN_DISPENSER_SERVER_ERROR) ∧
    ERRORS_TOKEN_DISPENSER_AUTH_ERROR ≠ ERRORS_TOKEN_DISPENSER_SERVER_ERROR ∧
    (∀ fs body t g, body ≠ "Auth error".toList → body ≠ "Server error".toList →
      splitOnSpace body = [t, g] →
      retrieve_token true fs body
        = TokenFetchResult.ok t g (write_cached_token t g fs)) := by
  refine ⟨fun fs => ?_, fun fs => ?_, by decide, fun fs body t g h1 h2 h3 => ?_⟩
  · rw [retrieve_token_force]
    unfold fetchFresh
    rw [if_pos rfl]
  · rw [retrieve_token_force]
    unfold fetchFresh
    rw [if_neg (by decide), if_pos rfl]
  · rw [retrieve_token_force]
    unfold fetchFresh
    rw [if_neg h1, if_neg h2]
    simp only [h3]

/-- Claim C7, witness: the two-token body `"tok 123"` is accepted and
persisted. -/
theorem C7_witness :
    retrieve_token true none "tok 123".toList
      = TokenFetchResult.ok "tok".toList "123".toList
          (write_cached_token "tok".toList "123".toList none) :=
  C7_theorem.2.2.2 none "tok 123".toList "tok".toList "123".toList
    (by decide) (by decide) (by decide)

/-! ## Claims about the audit log files -/

/-- Claim C8, counterexample.  `write_logfiles` only touches a
category's file when the category is non-empty (`if result:`): after a
run with an empty Failed set, the failed-log file keeps its prior
contents instead of being rewritten — so the three files are *not* fully
rewritten on every run. -/
theorem C8_counterexample :
    (write_logfiles [idA] [] [] none (some "stale".toList) none).2.1
      = some "stale".toList ∧
    some "stale".toList ≠ some (logLines []) := by
  decide

/-- Claim C8, amended: on every run, each *non-empty* category's log
file is fully rewritten with one identifier per line (prior contents
overwritten), while the log file of an *empty* category is left
untouched, keeping its prior contents. -/
theorem C8_theorem (succ fail unav : List PyStr) (fsS fsF fsU : Option PyStr) :
    (succ ≠ [] →
      (write_logfiles succ fail unav fsS fsF fsU).1 = some (logLines succ)) ∧
    (succ = [] → (write_logfiles succ fail unav fsS fsF fsU).1 = fsS) ∧
    (fail ≠ [] →
      (write_logfiles succ fail unav fsS fsF fsU).2.1 = some (logLines fail)) ∧
    (fail = [] → (write_logfiles succ fail unav fsS fsF fsU).2.1 = fsF) ∧
    (unav ≠ [] →
      (write_logfiles succ fail unav fsS fsF fsU).2.2 = some (logLines unav)) ∧
    (unav = [] → (write_logfiles succ fail unav fsS fsF fsU).2.2 = fsU) := by
  refine ⟨fun h => ?_, fun h => ?_, fun h => ?_, fun h => ?_, fun h => ?_, fun h => ?_⟩ <;>
    simp [write_logfiles, writeLogfile, h]

/-- Claim C8, witness: one run with all categories non-empty (files
rewritten) and one with all categories empty (files untouched). -/
theorem C8_witness :
    (write_logfiles [idA] [idB] [idC] none none none).1 = some (logLines [idA]) ∧
    (write_logfiles [idA] [idB] [idC] none none none).2.1 = some (logLines [idB]) ∧
    (write_logfiles [idA] [idB] [idC] none none none).2.2 = some (logLines [idC]) ∧
    (write_logfiles [] [] [] (some ['x']) (some ['y']) (some ['z'])).1 = some ['x'] ∧
    (write_logfiles [] [] [] (some ['x']) (some ['y']) (some ['z'])).2.1 = some ['y'] ∧
    (write_logfiles [] [] [] (some ['x']) (some ['y']) (some ['z'])).2.2 = some ['z'] := by
  have h1 := C8_theorem [idA] [idB] [idC] none none none
  have h2 := C8_theorem [] [] [] (some ['x']) (some ['y']) (some ['z'])
  exact ⟨h1.1 (by decide), h1.2.2.1 (by decide), h1.2.2.2.2.1 (by decide),
    h2.2.1 rfl, h2.2.2.2.1 rfl, h2.2.2.2.2.2 rfl⟩

end GPlayCli
